import Mathlib

/-!
Shallow embedding of the `beancount_db` Deutsche Bank current-account CSV
importer (`beancount_db/__init__.py` and `beancount_db/current.py`), together
with theorems about its extraction pipeline.

Python strings are modelled as Lean `String`; Python `Decimal` values are
modelled by a mantissa/scale pair (`Dec`); `datetime.date` by a `Date` record;
exceptions by an explicit error type threaded through `Except`.  The mutable
attributes that `CurrentAccount.__init__` creates and `extract` assigns
(`_date_from`, `_date_to`, `_starting_balance`, `_finishing_balance`) are
modelled as a `ParserState` record: `extract` receives the parser's state at
call time and returns the state the parser object holds afterwards.
-/

deriving instance DecidableEq for Except

namespace BeancountDB

/-- Whitespace characters, as matched by Python's `\s` regex class and
stripped by `str.strip()` (restricted to the ASCII range used here). -/
def isSpaceChar (c : Char) : Bool :=
  c = ' ' || c = '\t' || c = '\n' || c = '\r' || c = '\x0b' || c = '\x0c'

/-- Model of Python `str.strip()`: remove whitespace from both ends. -/
def pyStrip (s : String) : String :=
  String.mk (((s.toList.dropWhile isSpaceChar).reverse.dropWhile isSpaceChar).reverse)

/-- Numeric value of a list of decimal digit characters. -/
def digitsToNat (cs : List Char) : Nat :=
  cs.foldl (fun n c => 10 * n + (c.toNat - 48)) 0

/-- A finite Python `decimal.Decimal` value, kept as mantissa and decimal
scale exactly as `Decimal` keeps coefficient and exponent: the numeric value
is `mantissa / 10 ^ scale`. -/
structure Dec where
  mantissa : Int
  scale : Nat
deriving DecidableEq, Repr

/-- Numeric value of a `Dec`. -/
def Dec.toRat (d : Dec) : Rat := (d.mantissa : Rat) / (10 : Rat) ^ d.scale

/-- Numeric equality of two `Dec` values, the way Python compares
`Decimal`s: cross-multiplied mantissas agree. -/
def Dec.veq (a b : Dec) : Bool :=
  a.mantissa * (10 : Int) ^ b.scale = b.mantissa * (10 : Int) ^ a.scale

/-- Unsigned part of Python's `Decimal(string)` grammar for finite plain
decimals: digit run, optionally followed by a dot and a fractional digit run,
with at least one digit overall. -/
def parseUnsignedDec (cs : List Char) : Option Dec :=
  let intPart := cs.takeWhile Char.isDigit
  let rest := cs.dropWhile Char.isDigit
  match rest with
  | [] => if intPart.isEmpty then none else some ⟨digitsToNat intPart, 0⟩
  | '.' :: frac =>
    if frac.all Char.isDigit && !(intPart.isEmpty && frac.isEmpty) then
      some ⟨digitsToNat (intPart ++ frac), frac.length⟩
    else none
  | _ => none

/-- Model of Python `decimal.Decimal(string)` on the plain finite forms the
importer feeds it: optional surrounding whitespace, optional sign, digits with
an optional fractional part.  `none` models `decimal.InvalidOperation`. -/
def pyDecimal (s : String) : Option Dec :=
  let cs := (((s.toList.dropWhile isSpaceChar).reverse.dropWhile isSpaceChar).reverse)
  match cs with
  | '-' :: rest => (parseUnsignedDec rest).map (fun d => ⟨-d.mantissa, d.scale⟩)
  | '+' :: rest => parseUnsignedDec rest
  | _ => parseUnsignedDec cs

/-- Embedding of `beancount_db.format_number`:
`Decimal(value.replace(",", ""))` — remove every comma, then parse. -/
def format_number (value : String) : Option Dec :=
  pyDecimal (String.mk (value.toList.filter (fun c => c ≠ ',')))

/-- A calendar date, as produced by `datetime.strptime(s, "%m/%d/%Y").date()`. -/
structure Date where
  year : Nat
  month : Nat
  day : Nat
deriving DecidableEq, Repr

/-- Leap-year test used by the Gregorian calendar. -/
def isLeap (y : Nat) : Bool :=
  y % 4 = 0 && (y % 100 ≠ 0 || y % 400 = 0)

/-- Number of days in a month. -/
def daysInMonth (y m : Nat) : Nat :=
  if m = 2 then (if isLeap y then 29 else 28)
  else if m = 4 || m = 6 || m = 9 || m = 11 then 30
  else 31

/-- Month token of `strptime`'s `%m`: one or two digits, value 1–12. -/
def monthTok (cs : List Char) : Option Nat :=
  if cs.all Char.isDigit && (cs.length = 1 || cs.length = 2) then
    let v := digitsToNat cs
    if 1 ≤ v && v ≤ 12 then some v else none
  else none

/-- Day token of `strptime`'s `%d`: one or two digits, value 1–31. -/
def dayTok (cs : List Char) : Option Nat :=
  if cs.all Char.isDigit && (cs.length = 1 || cs.length = 2) then
    let v := digitsToNat cs
    if 1 ≤ v && v ≤ 31 then some v else none
  else none

/-- Year token of `strptime`'s `%Y`: exactly four digits; `datetime` then
requires the year to be at least 1. -/
def yearTok (cs : List Char) : Option Nat :=
  if cs.all Char.isDigit && cs.length = 4 then
    let v := digitsToNat cs
    if 1 ≤ v then some v else none
  else none

/-- Split a character list at every occurrence of a separator character,
with Python `str.split(sep)` semantics. -/
def splitOnChar (sep : Char) : List Char → List (List Char)
  | [] => [[]]
  | c :: rest =>
    if c = sep then [] :: splitOnChar sep rest
    else
      match splitOnChar sep rest with
      | [] => [[c]]
      | p :: ps => (c :: p) :: ps

/-- Embedding of `datetime.strptime(s, "%m/%d/%Y").date()`: the string must be
month `/` day `/` four-digit year, and the day must exist in that month.
`none` models the `ValueError` that `strptime`/`datetime` raise. -/
def parseDate (s : String) : Option Date :=
  match splitOnChar (Char.ofNat 47) s.toList with
  | [m, d, y] =>
    match monthTok m, dayTok d, yearTok y with
    | some mv, some dv, some yv =>
      if dv ≤ daysInMonth yv mv then some ⟨yv, mv, dv⟩ else none
    | _, _, _ => none
  | _ => none

/-! ### Regex matchers

`CurrentAccount.__init__` compiles three regexes.  They are embedded as
executable matchers on `List Char`, with regex backtracking rendered as an
explicit search over split points. -/

/-- Consume a literal character sequence; return the rest of the input. -/
def dropLit : List Char → List Char → Option (List Char)
  | [], cs => some cs
  | _ :: _, [] => none
  | l :: ls, c :: cs => if c = l then dropLit ls cs else none

/-- Consume one `\s` whitespace character. -/
def dropSpace : List Char → Option (List Char)
  | [] => none
  | c :: cs => if isSpaceChar c then some cs else none

/-- Model of the `$` anchor under `re.MULTILINE`: the match may end at the end
of the input or just before a newline. -/
def dollarOk : List Char → Bool
  | [] => true
  | c :: _ => c = '\n'

/-- Rest of the header regex after the `.*` part:
`;;;Customer\snumber:\s<branch>\s<number>` with the escaped configuration
strings, returning what follows the match. -/
def headerTailRest (branch number : String) (cs : List Char) : Option (List Char) :=
  (dropLit ";;;Customer".toList cs).bind fun cs1 =>
  (dropSpace cs1).bind fun cs2 =>
  (dropLit "number:".toList cs2).bind fun cs3 =>
  (dropSpace cs3).bind fun cs4 =>
  (dropLit branch.toList cs4).bind fun cs5 =>
  (dropSpace cs5).bind fun cs6 =>
  dropLit number.toList cs6

/-- The tail of the header regex followed by the `$` anchor. -/
def headerTailMatch (branch number : String) (cs : List Char) : Bool :=
  match headerTailRest branch number cs with
  | some rest => dollarOk rest
  | none => false

/-- Backtracking search for `.*` (which never crosses a newline) followed by
the header tail. -/
def midThenTail (branch number : String) : List Char → Bool
  | [] => headerTailMatch branch number []
  | c :: rest =>
    headerTailMatch branch number (c :: rest) ||
      (c ≠ '\n' && midThenTail branch number rest)

/-- Embedding of `_expected_header_regex.match(s)` being truthy:
`^Transactions\s.*;;;Customer\snumber:\s<branch>\s<number>$` compiled with
`re.MULTILINE` and attempted at position 0 only (Python `re.match`). -/
def headerRegexMatch (branch number : String) (s : String) : Bool :=
  match dropLit "Transactions".toList s.toList with
  | none => false
  | some cs =>
    match dropSpace cs with
    | none => false
    | some cs2 => midThenTail branch number cs2

/-- True exactly when no two adjacent characters are both commas. -/
def noAdjComma : List Char → Bool
  | c1 :: c2 :: rest => !(c1 = ',' && c2 = ',') && noAdjComma (c2 :: rest)
  | _ => true

/-- Matcher for `(\d+)(,(\d+))*`: nonempty, characters are digits or commas,
first and last characters are digits, and no two commas are adjacent. -/
def digitCommaRun (cs : List Char) : Bool :=
  !cs.isEmpty && cs.all (fun c => c.isDigit || c = ',') &&
    (match cs.head? with | some c => c.isDigit | none => false) &&
    (match cs.getLast? with | some c => c.isDigit | none => false) &&
    noAdjComma cs

/-- Embedding of `_starting_balance_regex.match(s)` being truthy:
`^Old\sbalance:;;;;((\d+)(,(\d+))*.\d\d);<currency>$` (the unescaped `.`
matches any character except a newline).  Because the trailing
`;<currency>$`, `\d\d` and `.` parts have fixed widths from the end, the
decomposition is unique. -/
def startingBalanceMatch (currency : String) (s : String) : Bool :=
  match dropLit "Old".toList s.toList with
  | none => false
  | some cs =>
    match dropSpace cs with
    | none => false
    | some cs2 =>
      match dropLit "balance:;;;;".toList cs2 with
      | none => false
      | some body =>
        let suffix := ';' :: currency.toList
        if suffix.length ≤ body.length then
          if body.drop (body.length - suffix.length) = suffix then
            let mid := body.take (body.length - suffix.length)
            if 3 ≤ mid.length then
              let run := mid.take (mid.length - 3)
              match mid.drop (mid.length - 3) with
              | [c, d1, d2] =>
                digitCommaRun run && c ≠ '\n' && d1.isDigit && d2.isDigit
              | _ => false
            else false
          else false
        else false

/-- Check that a character list is `\d\d/\d\d/\d\d\d\d`. -/
def dateTokenShape : List Char → Bool
  | [a, b, '/', c, d, '/', e, f, g, h] =>
    a.isDigit && b.isDigit && c.isDigit && d.isDigit &&
      e.isDigit && f.isDigit && g.isDigit && h.isDigit
  | _ => false

/-- Embedding of `_from_to_regex.match(s)`:
`^(\d\d/\d\d/\d\d\d\d) - (\d\d/\d\d/\d\d\d\d)$` on the stripped line;
returns the two captured groups. -/
def fromToMatchs (s : String) : Option (String × String) :=
  let cs := s.toList
  if cs.length = 23 then
    let a := cs.take 10
    let sep := (cs.drop 10).take 3
    let b := cs.drop 13
    if dateTokenShape a && sep = [' ', '-', ' '] && dateTokenShape b then
      some (String.mk a, String.mk b)
    else none
  else none

/-! ### Data model and extraction pipeline -/

/-- Construction-time configuration of `CurrentAccount.__init__`. -/
structure Config where
  branch : String
  number : String
  account : String
  currency : String
  fileEncoding : String
deriving DecidableEq, Repr

/-- The mutable attributes `__init__` creates and `extract` assigns:
`_date_from`, `_date_to`, `_starting_balance`, `_finishing_balance`.
Note `_starting_balance` holds `match.group(0)` — the raw matched line text —
while `_finishing_balance` holds a parsed `Decimal` value. -/
structure ParserState where
  dateFrom : Option Date
  dateTo : Option Date
  startingBalance : Option String
  finishingBalance : Option Dec
deriving DecidableEq, Repr

/-- The attribute values set by `__init__` (all `None`). -/
def initState : ParserState := ⟨none, none, none, none⟩

/-- One `csv.DictReader` row, restricted to the fields `extract` reads.
Header validation guarantees all 18 columns are present; unread columns are
irrelevant to the embedded behaviour. -/
structure Row where
  bookingDate : String
  valueDate : String
  beneficiary : String
  paymentDetails : String
  iban : String
  debit : String
  credit : String
  currency : String
deriving DecidableEq, Repr

/-- One emitted `data.Transaction` (with its single posting) restricted to the
fields the importer actually populates; `lineno` is the line number recorded
in the transaction's metadata. -/
structure Transaction where
  lineno : Nat
  date : Date
  amount : Dec
  currency : String
  payee : String
  narration : String
deriving DecidableEq, Repr

/-- Errors raised during extraction: `InvalidFormatError` with its message and
optional line number, or the exceptions that escape uncaught from
`datetime.strptime` (`ValueError`) and `Decimal` (`InvalidOperation`). -/
inductive ExtractError where
  | formatError (msg : String) (lineno : Option Nat)
  | dateParseError (s : String)
  | decimalParseError (s : String)
deriving DecidableEq, Repr

/-- A single-quote character, used in the importer's error messages. -/
def sq : String := String.singleton (Char.ofNat 39)

/-- The expected 18 column names, `CurrentAccount.DATA_HEADERS`. -/
def DATA_HEADERS : List String :=
  ["Booking date", "Value date", "Transaction Type", "Beneficiary / Originator",
   "Payment Details", "IBAN", "BIC", "Customer Reference", "Mandate Reference",
   "Creditor ID", "Compensation amount", "Original Amount", "Ultimate creditor",
   "Number of transactions", "Number of cheques", "Debit", "Credit", "Currency"]

/-- Join strings with the `;` delimiter, Python `";".join(...)`. -/
def joinSemi : List String → String
  | [] => ""
  | [s] => s
  | s :: rest => s ++ ";" ++ joinSemi rest

/-- The expected header joined by the delimiter, as interpolated into the
header-mismatch error message. -/
def expectedHeaderStr : String := joinSemi DATA_HEADERS

/-- Python `set(a) == set(b)` on the column-name lists: mutual membership. -/
def sameNameSet (a b : List String) : Bool :=
  a.all (fun x => decide (x ∈ b)) && b.all (fun x => decide (x ∈ a))

/-- The fieldnames check of `extract` (lines 139–144): compare the name sets
and on mismatch raise the error carrying the expected header and the current
line number. -/
def validateHeaders (hdr : List String) (lineno : Nat) : Option ExtractError :=
  if sameNameSet hdr DATA_HEADERS then none
  else
    some (.formatError ("Unexpected data headers (expected " ++ expectedHeaderStr ++ ")")
      (some lineno))

/-- Line 4 of the preamble. -/
def line4text : String := "Transactions pending are not included in this report."

/-- The debit-or-credit column that supplies the amount when exactly one of
the two is non-empty. -/
def amountField (r : Row) : String :=
  if r.debit ≠ "" then r.debit else r.credit

/-- The transaction an ordinary row yields at line `n` once its checks pass;
`none` when its amount or value date fails to parse. -/
def mkTx (cfg : Config) (n : Nat) (r : Row) : Option Transaction :=
  match format_number (amountField r), parseDate r.valueDate with
  | some v, some d => some ⟨n, d, v, cfg.currency, pyStrip r.beneficiary, ""⟩
  | _, _ => none

/-- The body of `extract`'s row loop (lines 146–200) for one row at line `n`:
either the terminal balance pseudo-row (updating `_finishing_balance`, no
transaction) or an ordinary row (producing a transaction). -/
def processRow (cfg : Config) (st : ParserState) (n : Nat) (r : Row) :
    Except ExtractError (ParserState × Option Transaction) :=
  if r.bookingDate = "Account balance" then
    if r.iban ≠ cfg.currency then
      .error (.formatError ("Unexpected currency " ++ r.currency) (some n))
    else
      match format_number r.paymentDetails with
      | none => .error (.decimalParseError r.paymentDetails)
      | some v => .ok (⟨st.dateFrom, st.dateTo, st.startingBalance, some v⟩, none)
  else
    if r.currency ≠ cfg.currency then
      .error (.formatError ("Unexpected currency " ++ r.currency) (some n))
    else
      let valueRes : Except ExtractError Dec :=
        if r.debit ≠ "" then
          if r.credit ≠ "" then
            .error (.formatError "Cannot have both debit and credit values" (some n))
          else
            match format_number r.debit with
            | none => .error (.decimalParseError r.debit)
            | some v => .ok v
        else if r.credit ≠ "" then
          match format_number r.credit with
          | none => .error (.decimalParseError r.credit)
          | some v => .ok v
        else
          .error (.formatError "Neither debit not credit value found" (some n))
      match valueRes with
      | .error e => .error e
      | .ok v =>
        match parseDate r.valueDate with
        | none => .error (.dateParseError r.valueDate)
        | some d =>
          .ok (st, some ⟨n, d, v, cfg.currency, pyStrip r.beneficiary, ""⟩)

/-- The row loop of `extract`: the line counter is incremented before each
row is processed, and transactions are appended in input order. -/
def processRows (cfg : Config) : ParserState → Nat → List Row →
    Except ExtractError (ParserState × List Transaction)
  | st, _, [] => .ok (st, [])
  | st, n, r :: rs =>
    match processRow cfg st (n + 1) r with
    | .error e => .error e
    | .ok (st1, tx) =>
      match processRows cfg st1 (n + 1) rs with
      | .error e => .error e
      | .ok (st2, txs) => .ok (st2, tx.toList ++ txs)

/-- The logical content of one statement file: the four preamble lines, the
table header names, and the data rows. -/
structure Statement where
  line1 : String
  line2 : String
  line3 : String
  line4 : String
  header : List String
  rows : List Row
deriving DecidableEq, Repr

/-- Embedding of `CurrentAccount.extract`.  The result pairs the parser
object's attribute state after the call with the returned entries list. -/
def extract (cfg : Config) (st : ParserState) (inp : Statement) :
    Except ExtractError (ParserState × List Transaction) :=
  let l1 := pyStrip inp.line1
  if ¬ headerRegexMatch cfg.branch cfg.number l1 then
    .error (.formatError ("Unexpected header " ++ sq ++ l1 ++ sq) (some 1))
  else
    let l2 := pyStrip inp.line2
    match fromToMatchs l2 with
    | none => .error (.formatError ("Unexpected from and to dates " ++ sq ++ l2 ++ sq) none)
    | some (a, b) =>
      match parseDate a with
      | none => .error (.dateParseError a)
      | some dFrom =>
        match parseDate b with
        | none => .error (.dateParseError b)
        | some dTo =>
          let st1 : ParserState :=
            ⟨some dFrom, some dTo, st.startingBalance, st.finishingBalance⟩
          let l3 := pyStrip inp.line3
          if ¬ startingBalanceMatch cfg.currency l3 then
            .error (.formatError ("Unexpected old balance " ++ sq ++ l3 ++ sq) none)
          else
            let st2 : ParserState :=
              ⟨st1.dateFrom, st1.dateTo, some l3, st1.finishingBalance⟩
            let l4 := pyStrip inp.line4
            if l4 ≠ line4text then
              .error (.formatError
                ("Unexpected line " ++ sq ++ l4 ++ sq ++ " (expected " ++ line4text ++ ")")
                none)
            else
              match validateHeaders inp.header 5 with
              | some e => .error e
              | none => processRows cfg st2 5 inp.rows

/-- Embedding of `CurrentAccount.identify`: the header regex is attempted on
the raw file contents with Python `re.match`, i.e. anchored at position 0. -/
def identify (cfg : Config) (contents : String) : Bool :=
  headerRegexMatch cfg.branch cfg.number contents

/-- Definition following the spec's words for §6 Identification: whether the
header-line pattern matches anywhere in the content, i.e. on any line. -/
def headerMatchesAnywhereSpec (cfg : Config) (contents : String) : Bool :=
  (splitOnChar (Char.ofNat 10) contents.toList).any
    (fun l => headerRegexMatch cfg.branch cfg.number (String.mk l))

/-- Embedding of `CurrentAccount.file_date`: run `extract`, then read the
`_date_to` attribute that the call left on the parser object. -/
def file_date (cfg : Config) (st : ParserState) (inp : Statement) :
    Except ExtractError (Option Date) :=
  match extract cfg st inp with
  | .error e => .error e
  | .ok (st1, _) => .ok st1.dateTo

/-! ### Validity predicates used in theorem statements -/

/-- An ordinary row that passes every check of the ordinary branch. -/
def ordinaryValidB (cfg : Config) (r : Row) : Bool :=
  (r.bookingDate ≠ "Account balance" : Bool) && (r.currency = cfg.currency : Bool) &&
    (((r.debit ≠ "" : Bool) && (r.credit = "" : Bool)) ||
      ((r.debit = "" : Bool) && (r.credit ≠ "" : Bool))) &&
    (format_number (amountField r)).isSome && (parseDate r.valueDate).isSome

/-- A terminal (sentinel) row that passes the terminal branch's checks. -/
def terminalValidB (cfg : Config) (r : Row) : Bool :=
  (r.bookingDate = "Account balance" : Bool) && (r.iban = cfg.currency : Bool) &&
    (format_number r.paymentDetails).isSome

/-- The four preamble lines and the table header all pass validation. -/
def preambleOk (cfg : Config) (inp : Statement) : Bool :=
  headerRegexMatch cfg.branch cfg.number (pyStrip inp.line1) &&
    (match fromToMatchs (pyStrip inp.line2) with
     | some (a, b) => (parseDate a).isSome && (parseDate b).isSome
     | none => false) &&
    startingBalanceMatch cfg.currency (pyStrip inp.line3) &&
    (pyStrip inp.line4 = line4text : Bool) &&
    sameNameSet inp.header DATA_HEADERS

/-- The parser state after a successful preamble pass. -/
def stAfterPreamble (st : ParserState) (inp : Statement) : ParserState :=
  match fromToMatchs (pyStrip inp.line2) with
  | some (a, b) => ⟨parseDate a, parseDate b, some (pyStrip inp.line3), st.finishingBalance⟩
  | none => st

/-- Transactions produced by a list of rows all of which are ordinary,
starting the line counter at `n`: the in-order map of `mkTx`. -/
def txsOf (cfg : Config) (n : Nat) : List Row → List Transaction
  | [] => []
  | r :: rs => (mkTx cfg (n + 1) r).toList ++ txsOf cfg (n + 1) rs

/-- Line number, when the result is an `InvalidFormatError`. -/
def resultErrorLineno (res : Except ExtractError (ParserState × List Transaction)) :
    Option (Option Nat) :=
  match res with
  | .error (.formatError _ n) => some n
  | _ => none

/-- Parser state left by a successful extraction. -/
def resultState (res : Except ExtractError (ParserState × List Transaction)) :
    Option ParserState :=
  match res with
  | .ok (st, _) => some st
  | .error _ => none

/-! ### Concrete fixtures used in witnesses and counterexamples -/

/-- A sample configuration: branch `AAA`, customer number `123`. -/
def sampleCfg : Config := ⟨"AAA", "123", "Assets:DB", "EUR", "utf-8"⟩

/-- A valid preamble header line for `sampleCfg`. -/
def sampleLine1 : String := "Transactions of current account;;;Customer number: AAA 123"

/-- An ordinary debit row. -/
def sampleOrd1 : Row := ⟨"01/04/2023", "01/05/2023", " Acme ", "x", "DE00", "50.00", "", "EUR"⟩

/-- An ordinary credit row. -/
def sampleOrd2 : Row := ⟨"01/06/2023", "01/07/2023", "Bob", "y", "DE00", "", "1,234.56", "EUR"⟩

/-- A valid terminal balance row. -/
def sampleTerm : Row := ⟨"Account balance", "", "", "2,000.00", "EUR", "", "", ""⟩

/-- An ordinary row with both debit and credit populated. -/
def sampleBoth : Row := ⟨"01/04/2023", "01/05/2023", "Acme", "x", "DE00", "50.00", "60.00", "EUR"⟩

/-- An ordinary row with neither debit nor credit populated. -/
def sampleNeither : Row := ⟨"01/04/2023", "01/05/2023", "Acme", "x", "DE00", "", "", "EUR"⟩

/-- A terminal row whose IBAN field is not the configured currency and whose
Currency field holds yet another value. -/
def sampleTermBad : Row := ⟨"Account balance", "", "", "2,000.00", "USD", "", "", "GBP"⟩

/-- A terminal row whose balance is written with a German-locale decimal
comma, as in the spec's §8 example. -/
def sampleTermGerman : Row := ⟨"Account balance", "", "", "1.234,56", "EUR", "", "", ""⟩

/-- A fully valid sample statement: two ordinary rows and a terminal row. -/
def sampleStatement : Statement :=
  ⟨sampleLine1, "01/01/2023 - 01/31/2023", "Old balance:;;;;1,000.00;EUR",
   line4text, DATA_HEADERS, [sampleOrd1, sampleOrd2, sampleTerm]⟩

/-- A valid statement whose only row is the German-formatted terminal row. -/
def germanStatement : Statement :=
  ⟨sampleLine1, "01/01/2023 - 01/31/2023", "Old balance:;;;;1,000.00;EUR",
   line4text, DATA_HEADERS, [sampleTermGerman]⟩

/-- A statement whose old-balance line is `Old balance:;;;;1,234.56;EUR`. -/
def rawBalanceStatement : Statement :=
  ⟨sampleLine1, "01/01/2023 - 01/31/2023", "Old balance:;;;;1,234.56;EUR",
   line4text, DATA_HEADERS, [sampleTerm]⟩

/-- A statement whose date-range line is malformed. -/
def badDatesStatement : Statement :=
  ⟨sampleLine1, "garbage", "Old balance:;;;;1,000.00;EUR",
   line4text, DATA_HEADERS, []⟩

/-- A header line matching `sampleCfg`'s pattern. -/
def sampleHeaderLine : String := "Transactions foo;;;Customer number: AAA 123"

/-- File contents whose second line — not the first — is a matching header. -/
def secondLineContents : String := "x" ++ "\n" ++ sampleHeaderLine

/-- The 18 expected column names with the first two swapped. -/
def permutedHeaders : List String :=
  ["Value date", "Booking date", "Transaction Type", "Beneficiary / Originator",
   "Payment Details", "IBAN", "BIC", "Customer Reference", "Mandate Reference",
   "Creditor ID", "Compensation amount", "Original Amount", "Ultimate creditor",
   "Number of transactions", "Number of cheques", "Debit", "Credit", "Currency"]

/-- The 18 expected column names plus an extra one. -/
def extraHeaders : List String := "Extra" :: DATA_HEADERS

/-- A statement whose old-balance line fails its pattern. -/
def badBalanceStatement : Statement :=
  ⟨sampleLine1, "01/01/2023 - 01/31/2023", "nope", line4text, DATA_HEADERS, []⟩

/-- A statement whose disclaimer line is wrong. -/
def badDisclaimerStatement : Statement :=
  ⟨sampleLine1, "01/01/2023 - 01/31/2023", "Old balance:;;;;1,000.00;EUR",
   "Something else", DATA_HEADERS, []⟩

/-- An ordinary row whose value date cannot be parsed. -/
def badDateRow : Row := ⟨"01/04/2023", "13/40/2023", "Acme", "x", "DE00", "50.00", "", "EUR"⟩

/-- An ordinary row whose debit amount cannot be parsed. -/
def badDebitRow : Row := ⟨"01/04/2023", "01/05/2023", "Acme", "x", "DE00", "abc", "", "EUR"⟩

/-! ### Helper lemmas about the row loop -/

theorem processRow_ordinary (cfg : Config) (st : ParserState) (n : Nat) (r : Row)
    (hb : r.bookingDate ≠ "Account balance") (hc : r.currency = cfg.currency)
    (v : Dec) (d : Date)
    (hone : (r.debit ≠ "" ∧ r.credit = "") ∨ (r.debit = "" ∧ r.credit ≠ ""))
    (hv : format_number (amountField r) = some v)
    (hd : parseDate r.valueDate = some d) :
    processRow cfg st n r = .ok (st, some ⟨n, d, v, cfg.currency, pyStrip r.beneficiary, ""⟩) := by
  rcases hone with ⟨h1, h2⟩ | ⟨h1, h2⟩
  · have hv' : format_number r.debit = some v := by
      simpa [amountField, h1] using hv
    simp [processRow, hb, hc, h1, h2, hv', hd]
  · have hv' : format_number r.credit = some v := by
      simpa [amountField, h1] using hv
    simp [processRow, hb, hc, h1, h2, hv', hd]

theorem processRow_ordinary_validB (cfg : Config) (st : ParserState) (n : Nat) (r : Row)
    (h : ordinaryValidB cfg r = true) :
    ∃ t : Transaction, mkTx cfg n r = some t ∧ processRow cfg st n r = .ok (st, some t) := by
  simp only [ordinaryValidB, Bool.and_eq_true, Bool.or_eq_true, decide_eq_true_eq] at h
  obtain ⟨⟨⟨⟨hb, hc⟩, hone⟩, hv⟩, hd⟩ := h
  obtain ⟨v, hv⟩ := Option.isSome_iff_exists.mp hv
  obtain ⟨d, hd⟩ := Option.isSome_iff_exists.mp hd
  refine ⟨⟨n, d, v, cfg.currency, pyStrip r.beneficiary, ""⟩, ?_, ?_⟩
  · simp [mkTx, hv, hd]
  · exact processRow_ordinary cfg st n r hb hc v d hone hv hd

theorem processRow_terminal (cfg : Config) (st : ParserState) (n : Nat) (r : Row)
    (hb : r.bookingDate = "Account balance") (hi : r.iban = cfg.currency)
    (v : Dec) (hv : format_number r.paymentDetails = some v) :
    processRow cfg st n r =
      .ok (⟨st.dateFrom, st.dateTo, st.startingBalance, some v⟩, none) := by
  simp [processRow, hb, hi, hv]

theorem processRows_append (cfg : Config) (st : ParserState) (n : Nat)
    (xs ys : List Row) :
    processRows cfg st n (xs ++ ys) =
      match processRows cfg st n xs with
      | .error e => .error e
      | .ok (st1, t1) =>
        match processRows cfg st1 (n + xs.length) ys with
        | .error e => .error e
        | .ok (st2, t2) => .ok (st2, t1 ++ t2) := by
  induction xs generalizing st n with
  | nil =>
    simp only [List.nil_append, processRows, List.length_nil, Nat.add_zero]
    cases processRows cfg st n ys with
    | error e => rfl
    | ok p => obtain ⟨a, b⟩ := p; simp
  | cons r rs ih =>
    simp only [List.cons_append, processRows, List.append_eq]
    cases hpr : processRow cfg st (n + 1) r with
    | error e => rfl
    | ok p =>
      obtain ⟨st1, tx⟩ := p
      dsimp only
      rw [ih st1 (n + 1)]
      have harith : n + 1 + rs.length = n + (r :: rs).length := by
        simp [List.length_cons]; omega
      rw [harith]
      cases hrec : processRows cfg st1 (n + 1) rs with
      | error e => rfl
      | ok q =>
        obtain ⟨st2, t1⟩ := q
        dsimp only
        cases hys : processRows cfg st2 (n + (r :: rs).length) ys with
        | error e => rfl
        | ok w =>
          obtain ⟨st3, t2⟩ := w
          simp [List.append_assoc]

theorem processRows_ordinary (cfg : Config) (st : ParserState) (n : Nat)
    (rows : List Row) (h : ∀ r ∈ rows, ordinaryValidB cfg r = true) :
    processRows cfg st n rows = .ok (st, txsOf cfg n rows) := by
  induction rows generalizing st n with
  | nil => simp [processRows, txsOf]
  | cons r rs ih =>
    obtain ⟨t, ht, hpr⟩ :=
      processRow_ordinary_validB cfg st (n + 1) r (h r (List.mem_cons_self r rs))
    simp only [processRows, hpr, ih st (n + 1) (fun x hx => h x (List.mem_cons_of_mem r hx))]
    simp [txsOf, ht]

theorem txsOf_length (cfg : Config) (n : Nat) (rows : List Row)
    (h : ∀ r ∈ rows, ordinaryValidB cfg r = true) :
    (txsOf cfg n rows).length = rows.length := by
  induction rows generalizing n with
  | nil => simp [txsOf]
  | cons r rs ih =>
    have hr := h r (List.mem_cons_self r rs)
    simp only [ordinaryValidB, Bool.and_eq_true, decide_eq_true_eq] at hr
    obtain ⟨⟨⟨⟨_, _⟩, _⟩, hv⟩, hd⟩ := hr
    obtain ⟨v, hv'⟩ := Option.isSome_iff_exists.mp hv
    obtain ⟨d, hd'⟩ := Option.isSome_iff_exists.mp hd
    simp [txsOf, mkTx, hv', hd', ih (n + 1) (fun x hx => h x (List.mem_cons_of_mem r hx))]

theorem extract_after_preamble (cfg : Config) (st : ParserState) (inp : Statement)
    (h : preambleOk cfg inp = true) :
    extract cfg st inp = processRows cfg (stAfterPreamble st inp) 5 inp.rows := by
  simp only [preambleOk, Bool.and_eq_true, decide_eq_true_eq] at h
  obtain ⟨⟨⟨⟨h1, h2⟩, h3⟩, h4⟩, h5⟩ := h
  simp only [extract, h1]
  cases hft : fromToMatchs (pyStrip inp.line2) with
  | none => rw [hft] at h2; exact absurd h2 (by simp)
  | some p =>
    obtain ⟨a, b⟩ := p
    rw [hft] at h2
    simp only [Bool.and_eq_true] at h2
    obtain ⟨ha, hb⟩ := h2
    obtain ⟨da, hda⟩ := Option.isSome_iff_exists.mp ha
    obtain ⟨db, hdb⟩ := Option.isSome_iff_exists.mp hb
    simp [hda, hdb, h3, h4, validateHeaders, h5, stAfterPreamble, hft]

/-! ### Claim theorems -/

/-- C1: For every valid statement file containing `N` ordinary data rows and
one terminal row whose booking-date field is `Account balance`, `extract`
returns exactly `N` transaction records in input order (`txsOf` maps the
rows in order), records a closing balance, and emits no transaction for the
terminal row. -/
theorem extract_valid_statement_shape (cfg : Config) (st : ParserState)
    (inp : Statement) (ord : List Row) (term : Row)
    (hpre : preambleOk cfg inp = true)
    (hrows : inp.rows = ord ++ [term])
    (hord : ∀ r ∈ ord, ordinaryValidB cfg r = true)
    (hb : term.bookingDate = "Account balance") (hi : term.iban = cfg.currency)
    (v : Dec) (hv : format_number term.paymentDetails = some v) :
    extract cfg st inp =
      .ok (⟨(stAfterPreamble st inp).dateFrom, (stAfterPreamble st inp).dateTo,
            (stAfterPreamble st inp).startingBalance, some v⟩,
           txsOf cfg 5 ord) ∧
      (txsOf cfg 5 ord).length = ord.length := by
  refine ⟨?_, txsOf_length cfg 5 ord hord⟩
  rw [extract_after_preamble cfg st inp hpre, hrows, processRows_append,
    processRows_ordinary cfg (stAfterPreamble st inp) 5 ord hord]
  dsimp only
  simp only [processRows,
    processRow_terminal cfg (stAfterPreamble st inp) (5 + ord.length + 1) term hb hi v hv]
  simp

/-- Witness for C1 at the concrete sample statement. -/
theorem extract_valid_statement_shape_witness :
    extract sampleCfg initState sampleStatement =
      .ok (⟨(stAfterPreamble initState sampleStatement).dateFrom,
            (stAfterPreamble initState sampleStatement).dateTo,
            (stAfterPreamble initState sampleStatement).startingBalance, some (⟨200000, 2⟩ : Dec)⟩,
           txsOf sampleCfg 5 [sampleOrd1, sampleOrd2]) ∧
      (txsOf sampleCfg 5 [sampleOrd1, sampleOrd2]).length = 2 :=
  extract_valid_statement_shape sampleCfg initState sampleStatement
    [sampleOrd1, sampleOrd2] sampleTerm (by decide) (by decide) (by decide)
    (by decide) (by decide) ⟨200000, 2⟩ (by decide)

/-- C2: for an ordinary row that reaches the debit/credit check, extraction
proceeds past it exactly when one of the two fields is non-empty: both
non-empty fails with the both-debit-and-credit error at the row's line number,
both empty fails with the neither error at the row's line number, and with
exactly one non-empty that field's parsed decimal becomes the transaction
amount. -/
theorem ordinary_row_debit_credit_exclusivity (cfg : Config) (st : ParserState)
    (n : Nat) (r : Row)
    (hb : r.bookingDate ≠ "Account balance") (hc : r.currency = cfg.currency) :
    ((r.debit ≠ "" ∧ r.credit ≠ "") →
      processRow cfg st n r =
        .error (.formatError "Cannot have both debit and credit values" (some n))) ∧
    ((r.debit = "" ∧ r.credit = "") →
      processRow cfg st n r =
        .error (.formatError "Neither debit not credit value found" (some n))) ∧
    (∀ (v : Dec) (d : Date),
      ((r.debit ≠ "" ∧ r.credit = "") ∨ (r.debit = "" ∧ r.credit ≠ "")) →
      format_number (amountField r) = some v → parseDate r.valueDate = some d →
      processRow cfg st n r =
        .ok (st, some ⟨n, d, v, cfg.currency, pyStrip r.beneficiary, ""⟩)) := by
  refine ⟨fun ⟨h1, h2⟩ => ?_, fun ⟨h1, h2⟩ => ?_, fun v d hone hv hd =>
    processRow_ordinary cfg st n r hb hc v d hone hv hd⟩
  · simp [processRow, hb, hc, h1, h2]
  · simp [processRow, hb, hc, h1, h2]

/-- Witness for C2 at three concrete rows: both fields set, neither set, and
exactly one set. -/
theorem ordinary_row_debit_credit_exclusivity_witness :
    processRow sampleCfg initState 6 sampleBoth =
      .error (.formatError "Cannot have both debit and credit values" (some 6)) ∧
    processRow sampleCfg initState 6 sampleNeither =
      .error (.formatError "Neither debit not credit value found" (some 6)) ∧
    processRow sampleCfg initState 6 sampleOrd1 =
      .ok (initState, some ⟨6, ⟨2023, 1, 5⟩, ⟨5000, 2⟩, "EUR", "Acme", ""⟩) :=
  ⟨(ordinary_row_debit_credit_exclusivity sampleCfg initState 6 sampleBoth
      (by decide) (by decide)).1 (by decide),
   (ordinary_row_debit_credit_exclusivity sampleCfg initState 6 sampleNeither
      (by decide) (by decide)).2.1 (by decide),
   by
    have h := (ordinary_row_debit_credit_exclusivity sampleCfg initState 6 sampleOrd1
      (by decide) (by decide)).2.2 ⟨5000, 2⟩ ⟨2023, 1, 5⟩ (by decide) (by decide) (by decide)
    simpa using h⟩

/-- C6: for the terminal row the currency validation compares the IBAN field
with the configured currency, and on failure the raised positioned error's
message interpolates the Currency field's value, with the row's line number;
when the IBAN field matches, the row is accepted and only updates the closing
balance. -/
theorem terminal_row_currency_quirk (cfg : Config) (st : ParserState)
    (n : Nat) (r : Row) (hb : r.bookingDate = "Account balance") :
    (r.iban ≠ cfg.currency →
      processRow cfg st n r =
        .error (.formatError ("Unexpected currency " ++ r.currency) (some n))) ∧
    (r.iban = cfg.currency → ∀ v : Dec, format_number r.paymentDetails = some v →
      processRow cfg st n r =
        .ok (⟨st.dateFrom, st.dateTo, st.startingBalance, some v⟩, none)) := by
  refine ⟨fun h => ?_, fun h v hv => processRow_terminal cfg st n r hb h v hv⟩
  simp [processRow, hb, h]

/-- Witness for C6: a terminal row with IBAN field `USD` under configured
currency `EUR` fails, and the message carries the Currency field's value
`GBP`; the matching terminal row is accepted. -/
theorem terminal_row_currency_quirk_witness :
    processRow sampleCfg initState 6 sampleTermBad =
      .error (.formatError "Unexpected currency GBP" (some 6)) ∧
    processRow sampleCfg initState 6 sampleTerm =
      .ok (⟨none, none, none, some (⟨200000, 2⟩ : Dec)⟩, none) :=
  ⟨by
    have h := (terminal_row_currency_quirk sampleCfg initState 6 sampleTermBad
      (by decide)).1 (by decide)
    simpa using h,
   by
    have h := (terminal_row_currency_quirk sampleCfg initState 6 sampleTerm
      (by decide)).2 (by decide) ⟨200000, 2⟩ (by decide)
    simpa using h⟩

/-- C10: `extract` does not require the sentinel row to be unique or last:
processing a valid sentinel row just records its balance and continues with
the remaining rows, ordinary rows after a sentinel still append transactions,
and a later valid sentinel row overwrites the recorded closing balance with
no error raised. -/
theorem sentinel_row_not_terminal (cfg : Config) (st : ParserState) (n : Nat)
    (s : Row) (hb : s.bookingDate = "Account balance")
    (hi : s.iban = cfg.currency) (v : Dec)
    (hv : format_number s.paymentDetails = some v) :
    (∀ rest, processRows cfg st n (s :: rest) =
        processRows cfg ⟨st.dateFrom, st.dateTo, st.startingBalance, some v⟩ (n + 1) rest) ∧
    (∀ (r s2 : Row) (t : Transaction) (w : Dec),
        ordinaryValidB cfg r = true → mkTx cfg (n + 2) r = some t →
        s2.bookingDate = "Account balance" → s2.iban = cfg.currency →
        format_number s2.paymentDetails = some w →
        processRows cfg st n [s, r, s2] =
          .ok (⟨st.dateFrom, st.dateTo, st.startingBalance, some w⟩, [t])) := by
  constructor
  · intro rest
    simp only [processRows, processRow_terminal cfg st (n + 1) s hb hi v hv]
    cases processRows cfg ⟨st.dateFrom, st.dateTo, st.startingBalance, some v⟩ (n + 1) rest with
    | error e => rfl
    | ok p => obtain ⟨a, b⟩ := p; simp
  · intro r s2 t w hr hmk hb2 hi2 hw
    obtain ⟨t', ht', hpr⟩ :=
      processRow_ordinary_validB cfg
        ⟨st.dateFrom, st.dateTo, st.startingBalance, some v⟩ (n + 2) r hr
    have htt : t' = t := by
      rw [hmk] at ht'
      exact (Option.some_inj.mp ht').symm
    subst htt
    simp only [processRows, processRow_terminal cfg st (n + 1) s hb hi v hv]
    rw [show n + 1 + 1 = n + 2 from rfl] at hpr
    simp only [hpr]
    simp only [processRow_terminal cfg
      ⟨st.dateFrom, st.dateTo, st.startingBalance, some v⟩ (n + 2 + 1) s2 hb2 hi2 w hw]
    simp

/-- Witness for C10: a concrete sentinel, ordinary row and second sentinel. -/
theorem sentinel_row_not_terminal_witness :
    processRows sampleCfg initState 5 [sampleTerm, sampleOrd1, sampleTermGerman] =
      .ok (⟨none, none, none, some (⟨123456, 5⟩ : Dec)⟩,
           [⟨7, ⟨2023, 1, 5⟩, ⟨5000, 2⟩, "EUR", "Acme", ""⟩]) := by
  have h := (sentinel_row_not_terminal sampleCfg initState 5 sampleTerm
    (by decide) (by decide) ⟨200000, 2⟩ (by decide)).2 sampleOrd1 sampleTermGerman
    ⟨7, ⟨2023, 1, 5⟩, ⟨5000, 2⟩, "EUR", "Acme", ""⟩ (⟨123456, 5⟩ : Dec)
    (by decide) (by decide) (by decide) (by decide) (by decide)
  simpa using h

/-- C7: table header validation succeeds for any permutation of the 18
expected column names, and fails with a `FormatError` listing the expected
header joined by the delimiter and tagged with the current line number
whenever the set of names differs from the expected schema — some name is
present that the schema lacks, or some schema name is missing. -/
theorem header_validation_set_semantics (hdr : List String) (n : Nat) :
    (hdr.Perm DATA_HEADERS → validateHeaders hdr n = none) ∧
    ((∃ c, (c ∈ hdr ∧ c ∉ DATA_HEADERS) ∨ (c ∈ DATA_HEADERS ∧ c ∉ hdr)) →
      validateHeaders hdr n =
        some (.formatError
          ("Unexpected data headers (expected " ++ expectedHeaderStr ++ ")") (some n))) := by
  constructor
  · intro hp
    have hs : sameNameSet hdr DATA_HEADERS = true := by
      simp only [sameNameSet, Bool.and_eq_true, List.all_eq_true, decide_eq_true_eq]
      exact ⟨fun x hx => hp.mem_iff.mp hx, fun x hx => hp.mem_iff.mpr hx⟩
    simp [validateHeaders, hs]
  · rintro ⟨c, ⟨hc1, hc2⟩ | ⟨hc1, hc2⟩⟩
    · have hs : ¬ sameNameSet hdr DATA_HEADERS = true := by
        simp only [sameNameSet, Bool.and_eq_true, List.all_eq_true, decide_eq_true_eq]
        rintro ⟨h1, _⟩
        exact hc2 (h1 c hc1)
      simp [validateHeaders, hs]
    · have hs : ¬ sameNameSet hdr DATA_HEADERS = true := by
        simp only [sameNameSet, Bool.and_eq_true, List.all_eq_true, decide_eq_true_eq]
        rintro ⟨_, h2⟩
        exact hc2 (h2 c hc1)
      simp [validateHeaders, hs]

/-- Witness for C7: a concrete permutation passes and a header with an extra
column fails. -/
theorem header_validation_set_semantics_witness :
    validateHeaders permutedHeaders 5 = none ∧
    validateHeaders extraHeaders 5 =
      some (.formatError
        ("Unexpected data headers (expected " ++ expectedHeaderStr ++ ")") (some 5)) :=
  ⟨(header_validation_set_semantics permutedHeaders 5).1 (List.Perm.swap _ _ _),
   (header_validation_set_semantics extraHeaders 5).2
     ⟨"Extra", Or.inl ⟨by decide, by decide⟩⟩⟩

/-- C3 (code bug evidence): on a valid preamble whose old-balance line is
`Old balance:;;;;1,234.56;EUR`, the value the extraction leaves in the
parser's `_starting_balance` attribute is the raw matched line text — the
whole line, `match.group(0)` — not a parsed decimal amount paired with the
currency. -/
theorem opening_balance_stored_raw :
    (resultState (extract sampleCfg initState rawBalanceStatement)).map
        (fun st => st.startingBalance) =
      some (some "Old balance:;;;;1,234.56;EUR") := by decide

/-- C5 counterexample: for the terminal row with payment-details `1.234,56`
the recorded closing balance is `Decimal("1.23456")` (mantissa 123456, scale
5), which is not numerically equal to 1234.56 (mantissa 123456, scale 2). -/
theorem german_balance_not_thousands :
    (resultState (extract sampleCfg initState germanStatement)).map
        (fun st => st.finishingBalance) = some (some (⟨123456, 5⟩ : Dec)) ∧
    Dec.veq ⟨123456, 5⟩ ⟨123456, 2⟩ = false := by decide

/-- C5 (amended): for the terminal row with booking-date `Account balance`,
IBAN field `EUR` and payment-details `1.234,56`, extraction strips the comma,
records the closing balance `1.23456`, and emits no transaction for the row. -/
theorem german_balance_comma_stripped :
    extract sampleCfg initState germanStatement =
      .ok (⟨some ⟨2023, 1, 1⟩, some ⟨2023, 1, 31⟩,
            some "Old balance:;;;;1,000.00;EUR", some ⟨123456, 5⟩⟩, []) := by decide

/-- C9 counterexample: after a successful extraction call the parser object
is left holding the period end date — the accumulated state is observable on
the parser after the call returns, unlike at construction time. -/
theorem extraction_state_observable :
    (resultState (extract sampleCfg initState sampleStatement)).map
        (fun st => st.dateTo) = some (some ⟨2023, 1, 31⟩) ∧
    initState.dateTo = none := by decide

/-- C4 counterexample: a malformed date-range line raises an
`InvalidFormatError` whose line number is absent — the claim that every
validation failure carries the offending 1-based line number is false. -/
theorem date_range_error_lacks_lineno :
    resultErrorLineno (extract sampleCfg initState badDatesStatement) = some none := by
  decide

/-- C4 (amended): malformed date-range, old-balance and disclaimer lines
raise the `FormatError` kind without a line number, while an unparseable
date or number in a data row propagates the underlying parse exception
(`ValueError` from `strptime`, `InvalidOperation` from `Decimal`), which is
not a `FormatError` at all. -/
theorem validation_error_positions (cfg : Config) (st : ParserState) (inp : Statement) :
    (headerRegexMatch cfg.branch cfg.number (pyStrip inp.line1) = true →
      fromToMatchs (pyStrip inp.line2) = none →
      extract cfg st inp =
        .error (.formatError
          ("Unexpected from and to dates " ++ sq ++ pyStrip inp.line2 ++ sq) none)) ∧
    (∀ (a b : String) (da db : Date),
      headerRegexMatch cfg.branch cfg.number (pyStrip inp.line1) = true →
      fromToMatchs (pyStrip inp.line2) = some (a, b) →
      parseDate a = some da → parseDate b = some db →
      startingBalanceMatch cfg.currency (pyStrip inp.line3) = false →
      extract cfg st inp =
        .error (.formatError
          ("Unexpected old balance " ++ sq ++ pyStrip inp.line3 ++ sq) none)) ∧
    (∀ (a b : String) (da db : Date),
      headerRegexMatch cfg.branch cfg.number (pyStrip inp.line1) = true →
      fromToMatchs (pyStrip inp.line2) = some (a, b) →
      parseDate a = some da → parseDate b = some db →
      startingBalanceMatch cfg.currency (pyStrip inp.line3) = true →
      pyStrip inp.line4 ≠ line4text →
      extract cfg st inp =
        .error (.formatError
          ("Unexpected line " ++ sq ++ pyStrip inp.line4 ++ sq ++
            " (expected " ++ line4text ++ ")") none)) ∧
    (∀ (n : Nat) (r : Row) (v : Dec),
      r.bookingDate ≠ "Account balance" → r.currency = cfg.currency →
      ((r.debit ≠ "" ∧ r.credit = "") ∨ (r.debit = "" ∧ r.credit ≠ "")) →
      format_number (amountField r) = some v → parseDate r.valueDate = none →
      processRow cfg st n r = .error (.dateParseError r.valueDate)) ∧
    (∀ (n : Nat) (r : Row),
      r.bookingDate ≠ "Account balance" → r.currency = cfg.currency →
      r.debit ≠ "" → r.credit = "" → format_number r.debit = none →
      processRow cfg st n r = .error (.decimalParseError r.debit)) := by
  refine ⟨fun h1 h2 => ?_, fun a b da db h1 h2 h3 h4 h5 => ?_,
    fun a b da db h1 h2 h3 h4 h5 h6 => ?_, fun n r v hb hc hone hv hd => ?_,
    fun n r hb hc h1 h2 h3 => ?_⟩
  · simp [extract, h1, h2]
  · simp [extract, h1, h2, h3, h4, h5]
  · simp [extract, h1, h2, h3, h4, h5, h6]
  · rcases hone with ⟨hd1, hd2⟩ | ⟨hd1, hd2⟩
    · have hv' : format_number r.debit = some v := by
        simpa [amountField, hd1] using hv
      simp [processRow, hb, hc, hd1, hd2, hv', hd]
    · have hv' : format_number r.credit = some v := by
        simpa [amountField, hd1] using hv
      simp [processRow, hb, hc, hd1, hd2, hv', hd]
  · simp [processRow, hb, hc, h1, h2, h3]

/-- Witness for C4 (amended) at five concrete inputs. -/
theorem validation_error_positions_witness :
    extract sampleCfg initState badDatesStatement =
      .error (.formatError ("Unexpected from and to dates " ++ sq ++ "garbage" ++ sq) none) ∧
    extract sampleCfg initState badBalanceStatement =
      .error (.formatError ("Unexpected old balance " ++ sq ++ "nope" ++ sq) none) ∧
    extract sampleCfg initState badDisclaimerStatement =
      .error (.formatError
        ("Unexpected line " ++ sq ++ "Something else" ++ sq ++
          " (expected " ++ line4text ++ ")") none) ∧
    processRow sampleCfg initState 6 badDateRow = .error (.dateParseError "13/40/2023") ∧
    processRow sampleCfg initState 6 badDebitRow = .error (.decimalParseError "abc") := by
  have h := validation_error_positions sampleCfg initState badDatesStatement
  have h2 := validation_error_positions sampleCfg initState badBalanceStatement
  have h3 := validation_error_positions sampleCfg initState badDisclaimerStatement
  refine ⟨?_, ?_, ?_, ?_, ?_⟩
  · have := h.1 (by decide) (by decide)
    simpa using this
  · have := h2.2.1 "01/01/2023" "01/31/2023" ⟨2023, 1, 1⟩ ⟨2023, 1, 31⟩
      (by decide) (by decide) (by decide) (by decide) (by decide)
    simpa using this
  · have := h3.2.2.1 "01/01/2023" "01/31/2023" ⟨2023, 1, 1⟩ ⟨2023, 1, 31⟩
      (by decide) (by decide) (by decide) (by decide) (by decide) (by decide)
    simpa using this
  · have := h.2.2.2.1 6 badDateRow ⟨5000, 2⟩ (by decide) (by decide)
      (by decide) (by decide) (by decide)
    simpa using this
  · have := h.2.2.2.2 6 badDebitRow (by decide) (by decide) (by decide) (by decide) (by decide)
    simpa using this

/-! ### Lemmas about the header matcher and anchoring -/

theorem dropLit_append (l cs ext r : List Char) (h : dropLit l cs = some r) :
    dropLit l (cs ++ ext) = some (r ++ ext) := by
  induction l generalizing cs with
  | nil =>
    simp only [dropLit] at h
    injection h with h
    subst h
    rfl
  | cons a as ih =>
    cases cs with
    | nil => simp [dropLit] at h
    | cons c cs2 =>
      simp only [dropLit] at h
      by_cases hc : c = a
      · rw [if_pos hc] at h
        simp only [List.cons_append, dropLit, if_pos hc]
        exact ih cs2 h
      · rw [if_neg hc] at h
        exact absurd h (by simp)

theorem dropLit_mem (l cs r : List Char) (h : dropLit l cs = some r) :
    ∀ c ∈ r, c ∈ cs := by
  induction l generalizing cs with
  | nil =>
    simp only [dropLit] at h
    injection h with h
    subst h
    exact fun c hc => hc
  | cons a as ih =>
    cases cs with
    | nil => simp [dropLit] at h
    | cons c cs2 =>
      simp only [dropLit] at h
      by_cases hc : c = a
      · rw [if_pos hc] at h
        exact fun x hx => List.mem_cons_of_mem c (ih cs2 h x hx)
      · rw [if_neg hc] at h
        exact absurd h (by simp)

theorem dropLit_decompose (l cs r : List Char) (h : dropLit l cs = some r) :
    cs = l ++ r := by
  induction l generalizing cs with
  | nil =>
    simp only [dropLit, Option.some.injEq] at h
    subst h
    rfl
  | cons a as ih =>
    cases cs with
    | nil => simp [dropLit] at h
    | cons c cs2 =>
      simp only [dropLit] at h
      by_cases hc : c = a
      · rw [if_pos hc] at h
        subst hc
        rw [List.cons_append]
        exact congrArg (List.cons c) (ih cs2 h)
      · rw [if_neg hc] at h
        exact absurd h (by simp)

theorem dropSpace_append (cs ext r : List Char) (h : dropSpace cs = some r) :
    dropSpace (cs ++ ext) = some (r ++ ext) := by
  cases cs with
  | nil => simp [dropSpace] at h
  | cons c cs2 =>
    simp only [dropSpace] at h
    by_cases hc : isSpaceChar c
    · rw [if_pos hc] at h
      injection h with h
      subst h
      simp [dropSpace, hc]
    · rw [if_neg hc] at h
      exact absurd h (by simp)

theorem dropSpace_mem (cs r : List Char) (h : dropSpace cs = some r) :
    ∀ c ∈ r, c ∈ cs := by
  cases cs with
  | nil => simp [dropSpace] at h
  | cons c cs2 =>
    simp only [dropSpace] at h
    by_cases hc : isSpaceChar c
    · rw [if_pos hc] at h
      injection h with h
      subst h
      exact fun x hx => List.mem_cons_of_mem c hx
    · rw [if_neg hc] at h
      exact absurd h (by simp)

theorem headerTailRest_append (b n : String) (cs ext r : List Char)
    (h : headerTailRest b n cs = some r) :
    headerTailRest b n (cs ++ ext) = some (r ++ ext) := by
  simp only [headerTailRest, Option.bind_eq_some] at h ⊢
  obtain ⟨r1, h1, r2, h2, r3, h3, r4, h4, r5, h5, r6, h6, h7⟩ := h
  exact ⟨r1 ++ ext, dropLit_append _ _ _ _ h1, r2 ++ ext, dropSpace_append _ _ _ h2,
    r3 ++ ext, dropLit_append _ _ _ _ h3, r4 ++ ext, dropSpace_append _ _ _ h4,
    r5 ++ ext, dropLit_append _ _ _ _ h5, r6 ++ ext, dropSpace_append _ _ _ h6,
    dropLit_append _ _ _ _ h7⟩

theorem headerTailRest_mem (b n : String) (cs r : List Char)
    (h : headerTailRest b n cs = some r) : ∀ c ∈ r, c ∈ cs := by
  simp only [headerTailRest, Option.bind_eq_some] at h
  obtain ⟨r1, h1, r2, h2, r3, h3, r4, h4, r5, h5, r6, h6, h7⟩ := h
  intro c hc
  exact dropLit_mem _ _ _ h1 c (dropSpace_mem _ _ h2 c (dropLit_mem _ _ _ h3 c
    (dropSpace_mem _ _ h4 c (dropLit_mem _ _ _ h5 c (dropSpace_mem _ _ h6 c
      (dropLit_mem _ _ _ h7 c hc))))))

theorem headerTailMatch_newline (b n : String) (cs ext : List Char)
    (h : headerTailMatch b n cs = true) (hnl : ∀ c ∈ cs, c ≠ '\n') :
    headerTailMatch b n (cs ++ '\n' :: ext) = true := by
  unfold headerTailMatch at h ⊢
  cases hr : headerTailRest b n cs with
  | none => rw [hr] at h; exact absurd h (by simp)
  | some r =>
    rw [hr] at h
    have hrnil : r = [] := by
      cases r with
      | nil => rfl
      | cons c rest =>
        simp only [dollarOk, decide_eq_true_eq] at h
        exact absurd h (hnl c (headerTailRest_mem b n cs _ hr c (List.mem_cons_self c rest)))
    subst hrnil
    rw [headerTailRest_append b n cs ('\n' :: ext) [] hr]
    simp [dollarOk]

theorem midThenTail_newline (b n : String) (cs ext : List Char)
    (h : midThenTail b n cs = true) (hnl : ∀ c ∈ cs, c ≠ '\n') :
    midThenTail b n (cs ++ '\n' :: ext) = true := by
  induction cs with
  | nil =>
    simp only [List.nil_append]
    have := headerTailMatch_newline b n [] ext h (by simp)
    simp only [List.nil_append] at this
    simp [midThenTail, this]
  | cons c rest ih =>
    simp only [midThenTail, Bool.or_eq_true] at h
    rcases h with h | h
    · have := headerTailMatch_newline b n (c :: rest) ext h hnl
      simp only [List.cons_append] at this ⊢
      simp [midThenTail, this]
    · simp only [Bool.and_eq_true, decide_eq_true_eq] at h
      obtain ⟨hc, hm⟩ := h
      have ihr := ih hm (fun x hx => hnl x (List.mem_cons_of_mem c hx))
      simp only [List.cons_append, midThenTail]
      simp [ihr, hc]

theorem headerRegexMatch_first_line (b n : String) (l rest : String)
    (h : headerRegexMatch b n l = true) (hnl : ∀ c ∈ l.toList, c ≠ '\n') :
    headerRegexMatch b n (l ++ "\n" ++ rest) = true := by
  have htl : (l ++ "\n" ++ rest).toList = l.toList ++ '\n' :: rest.toList := by
    simp [String.toList, String.data_append]
  unfold headerRegexMatch at h ⊢
  rw [htl]
  cases hd : dropLit "Transactions".toList l.toList with
  | none => rw [hd] at h; exact absurd h (by simp)
  | some cs =>
    rw [hd] at h
    dsimp only at h
    rw [dropLit_append _ _ _ _ hd]
    dsimp only
    cases hs : dropSpace cs with
    | none => rw [hs] at h; exact absurd h (by simp)
    | some cs2 =>
      rw [hs] at h
      dsimp only at h
      rw [dropSpace_append _ _ _ hs]
      dsimp only
      exact midThenTail_newline b n cs2 rest.toList h
        (fun c hc => hnl c (dropLit_mem _ _ _ hd c (dropSpace_mem _ _ hs c hc)))

/-- C8 counterexample: the spec-worded anywhere-match predicate holds for
contents whose second line is a matching header line, but `identify` — which
uses Python `re.match`, anchored at position 0 — rejects those contents. -/
theorem identify_not_search :
    headerMatchesAnywhereSpec sampleCfg secondLineContents = true ∧
    identify sampleCfg secondLineContents = false := by decide

/-- C8 (amended): `identify` is the header pattern anchored at the start of
the raw content (Python `re.match`): contents whose first line matches the
header pattern are identified, and any identified content must begin with
the literal `Transactions` — so a matching header line occurring only later
in the file is not identified. -/
theorem identify_anchored_at_start (cfg : Config) :
    (∀ l rest : String, headerRegexMatch cfg.branch cfg.number l = true →
      (∀ c ∈ l.toList, c ≠ '\n') →
      identify cfg (l ++ "\n" ++ rest) = true) ∧
    (∀ contents : String, identify cfg contents = true →
      ∃ r, contents.toList = "Transactions".toList ++ r) := by
  constructor
  · exact fun l rest h hnl =>
      headerRegexMatch_first_line cfg.branch cfg.number l rest h hnl
  · intro contents h
    unfold identify headerRegexMatch at h
    cases hd : dropLit "Transactions".toList contents.toList with
    | none => rw [hd] at h; exact absurd h (by simp)
    | some cs => exact ⟨cs, dropLit_decompose _ _ _ hd⟩

/-- Witness for C8 (amended) at concrete contents. -/
theorem identify_anchored_at_start_witness :
    identify sampleCfg (sampleHeaderLine ++ "\n" ++ "rest of file") = true ∧
    (∃ r, "Transactions of x;;;Customer number: AAA 123".toList =
      "Transactions".toList ++ r) :=
  ⟨(identify_anchored_at_start sampleCfg).1 sampleHeaderLine "rest of file"
      (by decide) (by decide),
   (identify_anchored_at_start sampleCfg).2 "Transactions of x;;;Customer number: AAA 123"
      (by decide)⟩

theorem processRow_preserves (cfg : Config) (st : ParserState) (n : Nat) (r : Row)
    (st' : ParserState) (tx : Option Transaction)
    (h : processRow cfg st n r = .ok (st', tx)) :
    st'.dateFrom = st.dateFrom ∧ st'.dateTo = st.dateTo ∧
      st'.startingBalance = st.startingBalance := by
  simp only [processRow] at h
  split at h
  · split at h
    · simp at h
    · split at h
      · simp at h
      · cases h
        exact ⟨rfl, rfl, rfl⟩
  · split at h
    · simp at h
    · split at h
      · simp at h
      · split at h
        · simp at h
        · cases h
          exact ⟨rfl, rfl, rfl⟩

theorem processRows_preserves (cfg : Config) (st : ParserState) (n : Nat)
    (rows : List Row) (st' : ParserState) (txs : List Transaction)
    (h : processRows cfg st n rows = .ok (st', txs)) :
    st'.dateFrom = st.dateFrom ∧ st'.dateTo = st.dateTo ∧
      st'.startingBalance = st.startingBalance := by
  induction rows generalizing st n txs with
  | nil =>
    simp only [processRows] at h
    cases h
    exact ⟨rfl, rfl, rfl⟩
  | cons r rs ih =>
    simp only [processRows] at h
    cases hpr : processRow cfg st (n + 1) r with
    | error e => rw [hpr] at h; cases h
    | ok p =>
      obtain ⟨st1, tx⟩ := p
      rw [hpr] at h
      dsimp only at h
      cases hrec : processRows cfg st1 (n + 1) rs with
      | error e => rw [hrec] at h; cases h
      | ok q =>
        obtain ⟨st2, t2⟩ := q
        rw [hrec] at h
        dsimp only at h
        cases h
        obtain ⟨e1, e2, e3⟩ := processRow_preserves cfg st (n + 1) r st1 tx hpr
        obtain ⟨f1, f2, f3⟩ := ih st1 (n + 1) t2 hrec
        exact ⟨f1.trans e1, f2.trans e2, f3.trans e3⟩

/-- C9 (amended): the period dates and balances accumulated during extraction
are stored on the parser object and remain observable after the call
returns: a successful `extract` leaves the parsed period dates and the raw
old-balance line in the parser's state, and `file_date` reads the persisted
`_date_to` attribute after re-running extraction. -/
theorem extraction_state_persists (cfg : Config) (st st' : ParserState)
    (inp : Statement) (txs : List Transaction)
    (h : extract cfg st inp = .ok (st', txs)) :
    st'.dateFrom.isSome ∧ st'.dateTo.isSome ∧
      st'.startingBalance = some (pyStrip inp.line3) ∧
      file_date cfg st inp = .ok st'.dateTo := by
  have hfd : file_date cfg st inp = .ok st'.dateTo := by
    simp only [file_date, h]
  simp only [extract] at h
  split at h
  · simp at h
  · split at h
    · simp at h
    · split at h
      · simp at h
      · split at h
        · simp at h
        · split at h
          · simp at h
          · split at h
            · simp at h
            · split at h
              · simp at h
              · obtain ⟨e1, e2, e3⟩ := processRows_preserves cfg _ 5 inp.rows st' txs h
                exact ⟨by simp [e1], by simp [e2], by simpa using e3, hfd⟩

/-- Witness for C9 (amended): `file_date` on the sample statement returns the
persisted period end date. -/
theorem extraction_state_persists_witness :
    file_date sampleCfg initState sampleStatement = .ok (some ⟨2023, 1, 31⟩) := by
  have h := extraction_state_persists sampleCfg initState
    ⟨some ⟨2023, 1, 1⟩, some ⟨2023, 1, 31⟩, some "Old balance:;;;;1,000.00;EUR",
     some ⟨200000, 2⟩⟩
    sampleStatement
    [⟨6, ⟨2023, 1, 5⟩, ⟨5000, 2⟩, "EUR", "Acme", ""⟩,
     ⟨7, ⟨2023, 1, 7⟩, ⟨123456, 2⟩, "EUR", "Bob", ""⟩]
    (by decide)
  exact h.2.2.2

end BeancountDB
